import Mathlib

/-!
Verification of the `go-mixpanel` client library (`src/mixpanel.go`).

The library is a thin wrapper around one request-construction routine:
it builds a JSON envelope per operation, base64-encodes its serialization,
issues an HTTP GET to `{baseURL}{path}?data={base64}`, and treats the
literal response body `"1"` as success.

Shallow embedding choices:
* Go `interface{}` values that reach `encoding/json` are modelled by the
  inductive `Val` (strings, integers, arrays, string-keyed objects) — the
  only shapes this library ever passes.
* Go maps (`map[string]interface{}`) are association lists together with
  the update operation `assocSet`; a `nil` map is `Option.none` at the call
  sites where Go distinguishes it (writing to a nil map panics).
* `http.Get` followed by `ioutil.ReadAll` is modelled by a caller-supplied
  `Transport : String → Except String String`: given the full request URL it
  returns either the response body read as text, or an error (connection
  failure or body-read failure, carrying the Go error's message).
* Methods have pointer receivers in Go, so each method returns the receiver
  state observable after the call alongside its result; `Track` additionally
  returns the caller's properties map after the call, because the source
  mutates it in place (`properties["token"] = m.Token`).
* `json.Marshal` is total on `Val` (its Go failure modes — channels,
  functions, NaN — are unrepresentable here); it serializes objects with
  keys in sorted order, as Go does for maps, and escapes strings the way
  `encoding/json` does (including the HTML escapes for `<`, `>`, `&`).
-/

namespace GoMixpanel

/-- JSON-representable values: the shapes `interface{}` takes in this library. -/
inductive Val where
  | str : String → Val
  | int : Int → Val
  | arr : List Val → Val
  | obj : List (String × Val) → Val

/-- Go map write `m[k] = v`: replace the binding if `k` is present, else append it. -/
def assocSet (m : List (String × Val)) (k : String) (v : Val) : List (String × Val) :=
  if m.any (fun kv => kv.1 == k) then
    m.map (fun kv => if kv.1 == k then (k, v) else kv)
  else
    m ++ [(k, v)]

/-- Go map read `m[k]` (first binding for `k`, if any). -/
def mapGet (m : List (String × Val)) (k : String) : Option Val :=
  match m with
  | [] => none
  | kv :: rest => if kv.1 == k then some kv.2 else mapGet rest k

/-- `encoding/json` string escaping: `"` and `\` and control characters,
plus Go's default HTML escaping of `<`, `>`, `&` and the JS-hostile
U+2028/U+2029. -/
def hexDigitChar (n : Nat) : Char :=
  if n < 10 then Char.ofNat (48 + n) else Char.ofNat (87 + n)

def jsonEscapeChar (c : Char) : String :=
  if c = '"' then "\\\"" else
  if c = '\\' then "\\\\" else
  if c = '\n' then "\\n" else
  if c = '\r' then "\\r" else
  if c = '\t' then "\\t" else
  if c = '<' then "\\u003c" else
  if c = '>' then "\\u003e" else
  if c = '&' then "\\u0026" else
  if c.toNat < 32 then "\\u00" ++ String.mk [hexDigitChar (c.toNat / 16), hexDigitChar (c.toNat % 16)] else
  if c.toNat = 0x2028 then "\\u2028" else
  if c.toNat = 0x2029 then "\\u2029" else
  String.singleton c

def jsonQuote (s : String) : String :=
  "\"" ++ String.join (s.data.map jsonEscapeChar) ++ "\""

mutual

/-- `json.Marshal` on `Val`: object keys in sorted order (Go sorts map keys). -/
def jsonMarshal : Val → String
  | .str s => jsonQuote s
  | .int n => toString n
  | .arr vs => "[" ++ String.intercalate "," (jsonMarshalList vs) ++ "]"
  | .obj kvs =>
      "\x7b" ++
        String.intercalate ","
          (((jsonMarshalPairs kvs).mergeSort (fun a b => a.1 ≤ b.1)).map
            (fun p => jsonQuote p.1 ++ ":" ++ p.2)) ++
      "\x7d"

def jsonMarshalList : List Val → List String
  | [] => []
  | v :: vs => jsonMarshal v :: jsonMarshalList vs

def jsonMarshalPairs : List (String × Val) → List (String × String)
  | [] => []
  | (k, v) :: kvs => (k, jsonMarshal v) :: jsonMarshalPairs kvs

end

/-- UTF-8 encoding of one character, as a list of byte values. -/
def utf8Bytes (c : Char) : List Nat :=
  let n := c.toNat
  if n < 0x80 then [n]
  else if n < 0x800 then [0xC0 + n / 64, 0x80 + n % 64]
  else if n < 0x10000 then [0xE0 + n / 4096, 0x80 + n / 64 % 64, 0x80 + n % 64]
  else [0xF0 + n / 262144, 0x80 + n / 4096 % 64, 0x80 + n / 64 % 64, 0x80 + n % 64]

/-- The UTF-8 bytes of a string (what Go hands to `base64.StdEncoding`). -/
def strBytes (s : String) : List Nat :=
  (s.data.map utf8Bytes).flatten

/-- The standard base64 alphabet. -/
def b64Alphabet : String :=
  "ABCDEFGHIJKLMNOPQRSTUVWXYZabcdefghijklmnopqrstuvwxyz0123456789+/"

def b64Char (n : Nat) : Char := b64Alphabet.data.getD n 'A'

/-- Index of a character in the base64 alphabet. -/
def b64CharDec (c : Char) : Option Nat := b64Alphabet.data.findIdx? (fun d => d == c)

/-- `base64.StdEncoding` on a byte list: 3-byte groups become 4 alphabet
characters; a trailing group of 1 or 2 bytes is padded with `=`. -/
def b64EncodeBytes : List Nat → List Char
  | [] => []
  | [a] => [b64Char (a / 4), b64Char (a % 4 * 16), '=', '=']
  | [a, b] => [b64Char (a / 4), b64Char (a % 4 * 16 + b / 16), b64Char (b % 16 * 4), '=']
  | a :: b :: c :: rest =>
      b64Char (a / 4) :: b64Char (a % 4 * 16 + b / 16) ::
      b64Char (b % 16 * 4 + c / 64) :: b64Char (c % 64) :: b64EncodeBytes rest

/-- `base64.StdEncoding.EncodeToString`. -/
def EncodeToString (bs : List Nat) : String := String.mk (b64EncodeBytes bs)

/-- Standard base64 decoding (inverse of `b64EncodeBytes`). -/
def b64DecodeChars : List Char → Option (List Nat)
  | [] => some []
  | c1 :: c2 :: c3 :: c4 :: rest =>
      match rest with
      | [] =>
          if c3 = '=' ∧ c4 = '=' then
            (b64CharDec c1).bind fun a => (b64CharDec c2).bind fun b =>
              some [a * 4 + b / 16]
          else if c4 = '=' then
            (b64CharDec c1).bind fun a => (b64CharDec c2).bind fun b =>
              (b64CharDec c3).bind fun c =>
                some [a * 4 + b / 16, b % 16 * 16 + c / 4]
          else
            (b64CharDec c1).bind fun a => (b64CharDec c2).bind fun b =>
              (b64CharDec c3).bind fun c => (b64CharDec c4).bind fun d =>
                some [a * 4 + b / 16, b % 16 * 16 + c / 4, c % 4 * 64 + d]
      | _ :: _ =>
          (b64CharDec c1).bind fun a => (b64CharDec c2).bind fun b =>
            (b64CharDec c3).bind fun c => (b64CharDec c4).bind fun d =>
              (b64DecodeChars rest).bind fun tail =>
                some ((a * 4 + b / 16) :: (b % 16 * 16 + c / 4) :: (c % 4 * 64 + d) :: tail)
  | _ => none

/-- Base64-decode a string back to its byte list. -/
def DecodeString (s : String) : Option (List Nat) := b64DecodeChars s.data

/-- The transport: given the full request URL, return the response body read
as text, or a transport error (connection or body-read failure). -/
def Transport : Type := String → Except String String

/-- `const BASE_URL = "https://api.mixpanel.com"` -/
def BASE_URL : String := "https://api.mixpanel.com"

/-- The errors an operation can return: either a propagated transport error
(carrying the underlying error's message verbatim), or one of the two
domain sentinels `ErrUnexpectedTrackResponse` / `ErrUnexpectedEngageResponse`. -/
inductive MpError where
  | ioError : String → MpError
  | errUnexpectedTrackResponse : MpError
  | errUnexpectedEngageResponse : MpError

/-- `type Mixpanel struct { Token, BaseURL, OverrideIPAddress string }` -/
structure Mixpanel where
  Token : String
  BaseURL : String
  OverrideIPAddress : String

/-- `NewMixpanelClient(args ...string)`: one argument gives the default base
URL, two or more give an explicit one, zero gives a nil pointer (`none`).
`OverrideIPAddress` is left at Go's zero value `""`. -/
def NewMixpanelClient : List String → Option Mixpanel
  | [] => none
  | [t] => some { Token := t, BaseURL := BASE_URL, OverrideIPAddress := "" }
  | t :: u :: _ => some { Token := t, BaseURL := u, OverrideIPAddress := "" }

/-- `func (m *Mixpanel) get(url string, data map[string]interface{}) (string, error)`:
marshal the envelope, base64-encode it, and GET `url?data=...`; the transport
yields the body read as text or an error. (`json.Marshal` cannot fail on `Val`.) -/
def Mixpanel.get (_m : Mixpanel) (t : Transport) (url : String)
    (data : List (String × Val)) : Except String String :=
  let jsonedData := jsonMarshal (Val.obj data)
  let base64JSONData := EncodeToString (strBytes jsonedData)
  t (url ++ "?data=" ++ base64JSONData)

/-- `func (m *Mixpanel) Track(event string, properties map[string]interface{}) error`.
The caller's `properties` map may be nil (`none`); writing `properties["token"]`
to a nil map panics, modelled as result `none`. Otherwise the result carries
the returned error (if any), the properties map after the in-place token
injection, and the receiver state after the call. -/
def Mixpanel.Track (m : Mixpanel) (t : Transport) (event : String)
    (properties : Option (List (String × Val))) :
    Option (Option MpError × List (String × Val) × Mixpanel) :=
  match properties with
  | none => none
  | some props =>
    let data : List (String × Val) := []
    let data := assocSet data "event" (Val.str event)
    let props := assocSet props "token" (Val.str m.Token)
    let data := assocSet data "properties" (Val.obj props)
    match m.get t (m.BaseURL ++ "/track/") data with
    | .error err => some (some (.ioError err), props, m)
    | .ok response =>
        if response ≠ "1" then some (some .errUnexpectedTrackResponse, props, m)
        else some (none, props, m)

/-- The envelope `engage` builds (lines 124–131 of the source):
`$token`, `$distinct_id`, `$ip` only when `OverrideIPAddress` is non-empty,
then the operation key. -/
def Mixpanel.engageData (m : Mixpanel) (distinctID : String) (op : String)
    (properties : Val) : List (String × Val) :=
  let data : List (String × Val) := []
  let data := assocSet data "$token" (Val.str m.Token)
  let data := assocSet data "$distinct_id" (Val.str distinctID)
  let data := if 0 < m.OverrideIPAddress.length
    then assocSet data "$ip" (Val.str m.OverrideIPAddress) else data
  assocSet data op properties

/-- `func (m *Mixpanel) engage(distinctID string, op string, properties interface{}) error`. -/
def Mixpanel.engage (m : Mixpanel) (t : Transport) (distinctID : String)
    (op : String) (properties : Val) : Option MpError × Mixpanel :=
  let data := m.engageData distinctID op properties
  match m.get t (m.BaseURL ++ "/engage/") data with
  | .error err => (some (.ioError err), m)
  | .ok response =>
      if response ≠ "1" then (some .errUnexpectedEngageResponse, m)
      else (none, m)

def Mixpanel.ProfileSet (m : Mixpanel) (t : Transport) (distinctID : String)
    (properties : List (String × Val)) : Option MpError × Mixpanel :=
  m.engage t distinctID "$set" (Val.obj properties)

def Mixpanel.ProfileSetOnce (m : Mixpanel) (t : Transport) (distinctID : String)
    (properties : List (String × Val)) : Option MpError × Mixpanel :=
  m.engage t distinctID "$set_once" (Val.obj properties)

/-- `ProfileAdd` takes `map[string]int`. -/
def Mixpanel.ProfileAdd (m : Mixpanel) (t : Transport) (distinctID : String)
    (properties : List (String × Int)) : Option MpError × Mixpanel :=
  m.engage t distinctID "$add" (Val.obj (properties.map (fun p => (p.1, Val.int p.2))))

def Mixpanel.ProfileAppend (m : Mixpanel) (t : Transport) (distinctID : String)
    (properties : List (String × Val)) : Option MpError × Mixpanel :=
  m.engage t distinctID "$append" (Val.obj properties)

def Mixpanel.ProfileUnion (m : Mixpanel) (t : Transport) (distinctID : String)
    (properties : List (String × Val)) : Option MpError × Mixpanel :=
  m.engage t distinctID "$union" (Val.obj properties)

/-- `ProfileUnset` takes `[]string`. -/
def Mixpanel.ProfileUnset (m : Mixpanel) (t : Transport) (distinctID : String)
    (properties : List String) : Option MpError × Mixpanel :=
  m.engage t distinctID "$unset" (Val.arr (properties.map Val.str))

/-- `ProfileDelete` sends the empty-string sentinel. -/
def Mixpanel.ProfileDelete (m : Mixpanel) (t : Transport) (distinctID : String) :
    Option MpError × Mixpanel :=
  m.engage t distinctID "$delete" (Val.str "")

/-- `func (m *Mixpanel) ProfileCreateAliasDistinctIdToAlias(oldID, newID string) error`:
`return m.Track("$create_alias", map[string]interface{}{"distinct_id": oldID, "alias": newID})`.
The map literal is fresh and non-nil, so `Track` cannot panic; the `none`
branch below is unreachable. -/
def Mixpanel.ProfileCreateAliasDistinctIdToAlias (m : Mixpanel) (t : Transport)
    (oldID newID : String) : Option MpError × Mixpanel :=
  match m.Track t "$create_alias"
      (some [("distinct_id", Val.str oldID), ("alias", Val.str newID)]) with
  | some (e, _, m') => (e, m')
  | none => (none, m)

/-- The seven engage operation keys (the table in §4.3 of the spec). -/
def opKeys : List String :=
  ["$set", "$set_once", "$add", "$append", "$union", "$unset", "$delete"]

/-- The response interpretation of `Track` (source lines 52–58), factored out
so theorems can state how `Track` maps an arbitrary transport outcome to its
returned error: a transport error is returned unmodified, a body other than
`"1"` yields `ErrUnexpectedTrackResponse`, the body `"1"` yields success. -/
def trackRespond : Except String String → Option MpError
  | .error err => some (.ioError err)
  | .ok response => if response ≠ "1" then some .errUnexpectedTrackResponse else none

/-- The response interpretation of `engage` (source lines 134–142), factored
out the same way. -/
def engageRespond : Except String String → Option MpError
  | .error err => some (.ioError err)
  | .ok response => if response ≠ "1" then some .errUnexpectedEngageResponse else none

end GoMixpanel
namespace GoMixpanel

theorem b64Alphabet_len : b64Alphabet.data.length = 64 := by decide

theorem b64CharDec_b64Char_fin : ∀ n : Fin 64, b64CharDec (b64Char n.val) = some n.val := by decide

theorem b64CharDec_b64Char (n : Nat) (h : n < 64) : b64CharDec (b64Char n) = some n :=
  b64CharDec_b64Char_fin ⟨n, h⟩

theorem b64Char_ne_eq_fin : ∀ n : Fin 64, b64Char n.val ≠ '=' := by decide

theorem b64Char_ne_eq (n : Nat) : b64Char n ≠ '=' := by
  by_cases h : n < 64
  · exact b64Char_ne_eq_fin ⟨n, h⟩
  · unfold b64Char
    rw [List.getD_eq_default]
    · decide
    · rw [b64Alphabet_len]; omega

end GoMixpanel
namespace GoMixpanel

theorem b64EncodeBytes_cons (r : Nat) (rs : List Nat) :
    ∃ x xs, b64EncodeBytes (r :: rs) = x :: xs := by
  match rs with
  | [] => exact ⟨_, _, rfl⟩
  | [b] => exact ⟨_, _, rfl⟩
  | b :: c :: rest => exact ⟨_, _, rfl⟩

theorem b64_roundtrip : ∀ (bs : List Nat), (∀ b ∈ bs, b < 256) →
    b64DecodeChars (b64EncodeBytes bs) = some bs
  | [], _ => rfl
  | [a], h => by
      have ha : a < 256 := h a (by simp)
      show b64DecodeChars [b64Char (a / 4), b64Char (a % 4 * 16), '=', '='] = some [a]
      simp only [b64DecodeChars]
      rw [if_pos ⟨trivial, trivial⟩]
      rw [b64CharDec_b64Char _ (by omega), b64CharDec_b64Char _ (by omega)]
      simp only [Option.bind_some, Option.some_bind]
      congr 1
      have : a / 4 * 4 + a % 4 * 16 / 16 = a := by omega
      rw [this]
  | [a, b], h => by
      have ha : a < 256 := h a (by simp)
      have hb : b < 256 := h b (by simp)
      show b64DecodeChars
          [b64Char (a / 4), b64Char (a % 4 * 16 + b / 16), b64Char (b % 16 * 4), '='] = some [a, b]
      simp only [b64DecodeChars]
      rw [if_neg (fun hc => b64Char_ne_eq _ hc.1)]
      rw [if_pos trivial]
      rw [b64CharDec_b64Char _ (by omega), b64CharDec_b64Char _ (by omega),
        b64CharDec_b64Char _ (by omega)]
      simp only [Option.bind_some, Option.some_bind]
      congr 1
      have h1 : a / 4 * 4 + (a % 4 * 16 + b / 16) / 16 = a := by omega
      have h2 : (a % 4 * 16 + b / 16) % 16 * 16 + b % 16 * 4 / 4 = b := by omega
      rw [h1, h2]
  | a :: b :: c :: rest, h => by
      have ha : a < 256 := h a (by simp)
      have hb : b < 256 := h b (by simp)
      have hc : c < 256 := h c (by simp)
      have ih := b64_roundtrip rest (fun x hx => h x (by simp [hx]))
      show b64DecodeChars
          (b64Char (a / 4) :: b64Char (a % 4 * 16 + b / 16) ::
           b64Char (b % 16 * 4 + c / 64) :: b64Char (c % 64) :: b64EncodeBytes rest)
          = some (a :: b :: c :: rest)
      match hrest : rest with
      | [] =>
          simp only [b64EncodeBytes, b64DecodeChars]
          rw [if_neg (fun hx => b64Char_ne_eq _ hx.1)]
          rw [if_neg (fun hx => b64Char_ne_eq _ hx)]
          rw [b64CharDec_b64Char _ (by omega), b64CharDec_b64Char _ (by omega),
            b64CharDec_b64Char _ (by omega), b64CharDec_b64Char _ (by omega)]
          simp only [Option.bind_some, Option.some_bind]
          congr 1
          have h1 : a / 4 * 4 + (a % 4 * 16 + b / 16) / 16 = a := by omega
          have h2 : (a % 4 * 16 + b / 16) % 16 * 16 + (b % 16 * 4 + c / 64) / 4 = b := by omega
          have h3 : (b % 16 * 4 + c / 64) % 4 * 64 + c % 64 = c := by omega
          rw [h1, h2, h3]
      | r :: rs =>
          obtain ⟨x, xs, hx⟩ := b64EncodeBytes_cons r rs
          rw [hx]
          simp only [b64DecodeChars]
          rw [b64CharDec_b64Char _ (by omega), b64CharDec_b64Char _ (by omega),
            b64CharDec_b64Char _ (by omega), b64CharDec_b64Char _ (by omega)]
          rw [← hx, ih]
          simp only [Option.bind_some, Option.some_bind]
          congr 1
          have h1 : a / 4 * 4 + (a % 4 * 16 + b / 16) / 16 = a := by omega
          have h2 : (a % 4 * 16 + b / 16) % 16 * 16 + (b % 16 * 4 + c / 64) / 4 = b := by omega
          have h3 : (b % 16 * 4 + c / 64) % 4 * 64 + c % 64 = c := by omega
          rw [h1, h2, h3]

end GoMixpanel
namespace GoMixpanel


theorem utf8Bytes_lt (c : Char) : ∀ x ∈ utf8Bytes c, x < 256 := by
  intro x hx
  have hv : c.toNat < 1114112 := by
    rcases c.valid with h | h
    · exact Nat.lt_trans h (by norm_num)
    · exact h.2
  unfold utf8Bytes at hx
  by_cases h1 : c.toNat < 128
  · simp [h1] at hx; omega
  · by_cases h2 : c.toNat < 2048
    · simp [h1, h2] at hx; rcases hx with rfl | rfl <;> omega
    · by_cases h3 : c.toNat < 65536
      · simp [h1, h2, h3] at hx; rcases hx with rfl | rfl | rfl <;> omega
      · simp [h1, h2, h3] at hx; rcases hx with rfl | rfl | rfl | rfl <;> omega

theorem strBytes_lt (s : String) : ∀ x ∈ strBytes s, x < 256 := by
  intro x hx
  unfold strBytes at hx
  simp only [List.mem_flatten, List.mem_map] at hx
  obtain ⟨l, ⟨c, _, rfl⟩, hxl⟩ := hx
  exact utf8Bytes_lt c x hxl

theorem decode_encode (s : String) :
    DecodeString (EncodeToString (strBytes s)) = some (strBytes s) := by
  show b64DecodeChars (b64EncodeBytes (strBytes s)) = some (strBytes s)
  exact b64_roundtrip _ (strBytes_lt s)


theorem mapGet_cons (kv : String × Val) (l : List (String × Val)) (k : String) :
    mapGet (kv :: l) k = if kv.1 == k then some kv.2 else mapGet l k := rfl

theorem mapGet_self_cons (k : String) (v : Val) (l : List (String × Val)) :
    mapGet ((k, v) :: l) k = some v := by
  rw [mapGet_cons, if_pos (by simp)]

theorem mapGet_replace (m : List (String × Val)) (k : String) (v : Val) :
    mapGet (m.map (fun kv => if kv.1 == k then (k, v) else kv)) k =
      if m.any (fun kv => kv.1 == k) then some v else mapGet m k := by
  induction m with
  | nil => simp [mapGet]
  | cons kv rest ih =>
      rw [List.map_cons, List.any_cons]
      by_cases hk : kv.1 == k
      · rw [if_pos hk, hk, Bool.true_or, if_pos rfl, mapGet_self_cons]
      · have hk' : (kv.1 == k) = false := by simpa using hk
        rw [if_neg hk, hk', Bool.false_or, mapGet_cons, if_neg hk, ih, mapGet_cons, if_neg hk]

theorem mapGet_append_of_not_any (m l : List (String × Val)) (k : String)
    (h : m.any (fun kv => kv.1 == k) = false) :
    mapGet (m ++ l) k = mapGet l k := by
  induction m with
  | nil => simp
  | cons kv rest ih =>
      rw [List.any_cons, Bool.or_eq_false_iff] at h
      rw [List.cons_append, mapGet_cons, if_neg (by simp [h.1]), ih h.2]

theorem mapGet_assocSet_self (m : List (String × Val)) (k : String) (v : Val) :
    mapGet (assocSet m k v) k = some v := by
  unfold assocSet
  split
  · rename_i h; rw [mapGet_replace, if_pos h]
  · rename_i h
    rw [mapGet_append_of_not_any _ _ _ (Bool.eq_false_iff.mpr h), mapGet_self_cons]

theorem mapGet_replace_ne (m : List (String × Val)) (k : String) (v : Val)
    (q : String) (h : q ≠ k) :
    mapGet (m.map (fun kv => if kv.1 == k then (k, v) else kv)) q = mapGet m q := by
  induction m with
  | nil => rfl
  | cons kv rest ih =>
      rw [List.map_cons]
      by_cases hk : kv.1 == k
      · have hkv : kv.1 = k := by simpa using hk
        rw [if_pos hk, mapGet_cons, mapGet_cons, if_neg (by simp [Ne.symm h]),
          if_neg (by simp [hkv, Ne.symm h]), ih]
      · rw [if_neg hk, mapGet_cons, mapGet_cons, ih]

theorem mapGet_append_single_ne (m : List (String × Val)) (k : String) (v : Val)
    (q : String) (h : q ≠ k) :
    mapGet (m ++ [(k, v)]) q = mapGet m q := by
  induction m with
  | nil => simp [mapGet, Ne.symm h]
  | cons kv rest ih => rw [List.cons_append, mapGet_cons, mapGet_cons, ih]

theorem mapGet_assocSet_ne (m : List (String × Val)) (k : String) (v : Val)
    (q : String) (h : q ≠ k) :
    mapGet (assocSet m k v) q = mapGet m q := by
  unfold assocSet
  split
  · exact mapGet_replace_ne m k v q h
  · exact mapGet_append_single_ne m k v q h

theorem assocSet_eq_append (m : List (String × Val)) (k : String) (v : Val)
    (h : m.any (fun kv => kv.1 == k) = false) :
    assocSet m k v = m ++ [(k, v)] := by
  simp [assocSet, h]

end GoMixpanel
namespace GoMixpanel

theorem assocSet_nil (k : String) (v : Val) : assocSet [] k v = [(k, v)] := rfl

theorem assocSet_track_props (e x : Val) :
    assocSet [("event", e)] "properties" x = [("event", e), ("properties", x)] := rfl

theorem assocSet_engage_did (x y : Val) :
    assocSet [("$token", x)] "$distinct_id" y = [("$token", x), ("$distinct_id", y)] := rfl

theorem assocSet_engage_ip (x y z : Val) :
    assocSet [("$token", x), ("$distinct_id", y)] "$ip" z =
      [("$token", x), ("$distinct_id", y), ("$ip", z)] := rfl

/-- `Track` on a non-nil map: inject the token into the caller's map, send
`{event, properties}` to `{baseURL}/track/?data={base64(json)}`, interpret
the response; the properties map and the receiver come back unchanged
thereafter. -/
theorem Track_characterization (m : Mixpanel) (t : Transport) (event : String)
    (props : List (String × Val)) :
    m.Track t event (some props) =
      some (trackRespond (t ((m.BaseURL ++ "/track/") ++ "?data=" ++
          EncodeToString (strBytes (jsonMarshal (Val.obj
            [("event", Val.str event),
             ("properties", Val.obj (assocSet props "token" (Val.str m.Token)))]))))),
        assocSet props "token" (Val.str m.Token), m) := by
  unfold Mixpanel.Track Mixpanel.get
  simp only [assocSet_nil, assocSet_track_props]
  rcases ht : t ((m.BaseURL ++ "/track/") ++ "?data=" ++
      EncodeToString (strBytes (jsonMarshal (Val.obj
        [("event", Val.str event),
         ("properties", Val.obj (assocSet props "token" (Val.str m.Token)))])))) with e | r
  · rfl
  · by_cases hr : r = "1" <;> simp [trackRespond, hr]

/-- `engage`: send the engage envelope to `{baseURL}/engage/?data={base64(json)}`
and interpret the response; the receiver comes back unchanged. -/
theorem engage_characterization (m : Mixpanel) (t : Transport) (distinctID op : String)
    (v : Val) :
    m.engage t distinctID op v =
      (engageRespond (t ((m.BaseURL ++ "/engage/") ++ "?data=" ++
          EncodeToString (strBytes (jsonMarshal (Val.obj (m.engageData distinctID op v)))))),
        m) := by
  unfold Mixpanel.engage Mixpanel.get
  dsimp only
  rcases ht : t ((m.BaseURL ++ "/engage/") ++ "?data=" ++
      EncodeToString (strBytes (jsonMarshal (Val.obj (m.engageData distinctID op v))))) with e | r
  · rfl
  · by_cases hr : r = "1" <;> simp [engageRespond, hr]

theorem track_okStub (m : Mixpanel) (body event : String) (props : List (String × Val)) :
    m.Track (fun _ => .ok body) event (some props) =
      some (if body = "1" then none else some MpError.errUnexpectedTrackResponse,
        assocSet props "token" (Val.str m.Token), m) := by
  unfold Mixpanel.Track Mixpanel.get
  by_cases hb : body = "1" <;> simp [hb]

theorem engage_okStub (m : Mixpanel) (body d op : String) (v : Val) :
    m.engage (fun _ => .ok body) d op v =
      (if body = "1" then none else some MpError.errUnexpectedEngageResponse, m) := by
  unfold Mixpanel.engage Mixpanel.get
  by_cases hb : body = "1" <;> simp [hb]

theorem track_errStub (m : Mixpanel) (e event : String) (props : List (String × Val)) :
    m.Track (fun _ => .error e) event (some props) =
      some (some (.ioError e), assocSet props "token" (Val.str m.Token), m) := rfl

theorem engage_errStub (m : Mixpanel) (e d op : String) (v : Val) :
    m.engage (fun _ => .error e) d op v = (some (.ioError e), m) := rfl

/-- Observing the exact request URL `Track` hands to the transport, through a
transport that fails with its own argument. -/
theorem track_spy (m : Mixpanel) (event : String) (props : List (String × Val)) :
    m.Track (fun u => .error u) event (some props) =
      some (some (.ioError ((m.BaseURL ++ "/track/") ++ "?data=" ++
          EncodeToString (strBytes (jsonMarshal (Val.obj
            [("event", Val.str event),
             ("properties", Val.obj (assocSet props "token" (Val.str m.Token)))]))))),
        assocSet props "token" (Val.str m.Token), m) := rfl

/-- The same observation for `engage`. -/
theorem engage_spy (m : Mixpanel) (d op : String) (v : Val) :
    m.engage (fun u => .error u) d op v =
      (some (.ioError ((m.BaseURL ++ "/engage/") ++ "?data=" ++
          EncodeToString (strBytes (jsonMarshal (Val.obj (m.engageData d op v)))))), m) := rfl

/-- The engage envelope, in explicit form, for any operation key other than
the three header keys: the two (or, with an override IP, three) header
entries followed by the single operation entry. -/
theorem engageData_eq (m : Mixpanel) (d op : String) (v : Val)
    (h1 : ("$token" == op) = false) (h2 : ("$distinct_id" == op) = false)
    (h3 : ("$ip" == op) = false) :
    m.engageData d op v =
      (if 0 < m.OverrideIPAddress.length
        then [("$token", Val.str m.Token), ("$distinct_id", Val.str d),
              ("$ip", Val.str m.OverrideIPAddress)]
        else [("$token", Val.str m.Token), ("$distinct_id", Val.str d)]) ++ [(op, v)] := by
  unfold Mixpanel.engageData
  simp only [assocSet_nil, assocSet_engage_did]
  by_cases hip : 0 < m.OverrideIPAddress.length
  · rw [if_pos hip, assocSet_engage_ip, if_pos hip, assocSet_eq_append]
    simp [h1, h2, h3]
  · rw [if_neg hip, if_neg hip, assocSet_eq_append]
    simp [h1, h2]

end GoMixpanel
namespace GoMixpanel

/-- **C1.** For every `Track` or profile operation call whose transport returns
a response body, the operation returns no error exactly when that body is the
literal string `"1"`; for any other body (`"0"`, `""`, anything else) `Track`
returns `ErrUnexpectedTrackResponse` and every profile operation returns
`ErrUnexpectedEngageResponse`. -/
theorem claim_C1_response_success_contract (m : Mixpanel) (body event distinctID : String)
    (props pprops : List (String × Val)) (iprops : List (String × Int)) (names : List String) :
    ((m.Track (fun _ => .ok body) event (some props)).map (fun r => r.1) =
        some (if body = "1" then none else some MpError.errUnexpectedTrackResponse))
    ∧ (m.ProfileSet (fun _ => .ok body) distinctID pprops).1 =
        (if body = "1" then none else some MpError.errUnexpectedEngageResponse)
    ∧ (m.ProfileSetOnce (fun _ => .ok body) distinctID pprops).1 =
        (if body = "1" then none else some MpError.errUnexpectedEngageResponse)
    ∧ (m.ProfileAdd (fun _ => .ok body) distinctID iprops).1 =
        (if body = "1" then none else some MpError.errUnexpectedEngageResponse)
    ∧ (m.ProfileAppend (fun _ => .ok body) distinctID pprops).1 =
        (if body = "1" then none else some MpError.errUnexpectedEngageResponse)
    ∧ (m.ProfileUnion (fun _ => .ok body) distinctID pprops).1 =
        (if body = "1" then none else some MpError.errUnexpectedEngageResponse)
    ∧ (m.ProfileUnset (fun _ => .ok body) distinctID names).1 =
        (if body = "1" then none else some MpError.errUnexpectedEngageResponse)
    ∧ (m.ProfileDelete (fun _ => .ok body) distinctID).1 =
        (if body = "1" then none else some MpError.errUnexpectedEngageResponse)
    := by
  refine ⟨?_, ?_, ?_, ?_, ?_, ?_, ?_, ?_⟩
  · rw [track_okStub]; rfl
  · simp only [Mixpanel.ProfileSet, engage_okStub]
  · simp only [Mixpanel.ProfileSetOnce, engage_okStub]
  · simp only [Mixpanel.ProfileAdd, engage_okStub]
  · simp only [Mixpanel.ProfileAppend, engage_okStub]
  · simp only [Mixpanel.ProfileUnion, engage_okStub]
  · simp only [Mixpanel.ProfileUnset, engage_okStub]
  · simp only [Mixpanel.ProfileDelete, engage_okStub]

/-- **C2.** `Track(event, properties)` injects `"token" ↦ client token` into the
caller-supplied properties mapping, mutating it in place (the map visible after
the call is `assocSet props "token" token`), and the request body it hands to
the transport decodes via base64 to the JSON serialization of an object with
exactly the keys `"event"` (the event argument) and `"properties"` (the mutated
mapping, which contains `"token" ↦ client token`). -/
theorem claim_C2_track_envelope_and_mutation (m : Mixpanel) (t : Transport) (event : String)
    (props : List (String × Val)) :
    ((m.Track t event (some props)).map (fun r => r.2.1) =
        some (assocSet props "token" (Val.str m.Token)))
    ∧ mapGet (assocSet props "token" (Val.str m.Token)) "token" = some (Val.str m.Token)
    ∧ (m.Track (fun u => .error u) event (some props) =
        some (some (.ioError ((m.BaseURL ++ "/track/") ++ "?data=" ++
            EncodeToString (strBytes (jsonMarshal (Val.obj
              [("event", Val.str event),
             ("properties", Val.obj (assocSet props "token" (Val.str m.Token)))]))))),
          assocSet props "token" (Val.str m.Token), m))
    ∧ DecodeString (EncodeToString (strBytes (jsonMarshal (Val.obj
          [("event", Val.str event),
             ("properties", Val.obj (assocSet props "token" (Val.str m.Token)))])))) =
        some (strBytes (jsonMarshal (Val.obj
          [("event", Val.str event),
             ("properties", Val.obj (assocSet props "token" (Val.str m.Token)))]))) := by
  refine ⟨?_, mapGet_assocSet_self _ _ _, track_spy m event props, decode_encode _⟩
  rw [Track_characterization]
  rfl

/-- **C3.** Every profile operation delegates to `engage` with its operation
key and value (`$set`, `$set_once`, `$add`, `$append`, `$union`, `$unset`,
`$delete`; the empty-string sentinel for `ProfileDelete`), and the engage
envelope contains `$token` = client token, `$distinct_id` = the distinctID
argument, and exactly one operation key, mapped to the supplied value; the
body sent to the transport is the base64 of the envelope's serialization. -/
theorem claim_C3_engage_envelopes (m : Mixpanel) (t : Transport) (distinctID op : String)
    (pprops : List (String × Val)) (iprops : List (String × Int)) (names : List String)
    (v : Val) :
    ((m.ProfileSet (t) distinctID pprops = m.engage t distinctID "$set" (Val.obj pprops))
      ∧ mapGet (m.engageData distinctID "$set" (Val.obj pprops)) "$token" = some (Val.str m.Token)
      ∧ mapGet (m.engageData distinctID "$set" (Val.obj pprops)) "$distinct_id" = some (Val.str distinctID)
      ∧ (m.engageData distinctID "$set" (Val.obj pprops)).filter (fun kv => opKeys.contains kv.1) =
          [("$set", (Val.obj pprops))])
    ∧
    ((m.ProfileSetOnce (t) distinctID pprops = m.engage t distinctID "$set_once" (Val.obj pprops))
      ∧ mapGet (m.engageData distinctID "$set_once" (Val.obj pprops)) "$token" = some (Val.str m.Token)
      ∧ mapGet (m.engageData distinctID "$set_once" (Val.obj pprops)) "$distinct_id" = some (Val.str distinctID)
      ∧ (m.engageData distinctID "$set_once" (Val.obj pprops)).filter (fun kv => opKeys.contains kv.1) =
          [("$set_once", (Val.obj pprops))])
    ∧
    ((m.ProfileAdd (t) distinctID iprops = m.engage t distinctID "$add" (Val.obj (iprops.map (fun p => (p.1, Val.int p.2)))))
      ∧ mapGet (m.engageData distinctID "$add" (Val.obj (iprops.map (fun p => (p.1, Val.int p.2))))) "$token" = some (Val.str m.Token)
      ∧ mapGet (m.engageData distinctID "$add" (Val.obj (iprops.map (fun p => (p.1, Val.int p.2))))) "$distinct_id" = some (Val.str distinctID)
      ∧ (m.engageData distinctID "$add" (Val.obj (iprops.map (fun p => (p.1, Val.int p.2))))).filter (fun kv => opKeys.contains kv.1) =
          [("$add", (Val.obj (iprops.map (fun p => (p.1, Val.int p.2)))))])
    ∧
    ((m.ProfileAppend (t) distinctID pprops = m.engage t distinctID "$append" (Val.obj pprops))
      ∧ mapGet (m.engageData distinctID "$append" (Val.obj pprops)) "$token" = some (Val.str m.Token)
      ∧ mapGet (m.engageData distinctID "$append" (Val.obj pprops)) "$distinct_id" = some (Val.str distinctID)
      ∧ (m.engageData distinctID "$append" (Val.obj pprops)).filter (fun kv => opKeys.contains kv.1) =
          [("$append", (Val.obj pprops))])
    ∧
    ((m.ProfileUnion (t) distinctID pprops = m.engage t distinctID "$union" (Val.obj pprops))
      ∧ mapGet (m.engageData distinctID "$union" (Val.obj pprops)) "$token" = some (Val.str m.Token)
      ∧ mapGet (m.engageData distinctID "$union" (Val.obj pprops)) "$distinct_id" = some (Val.str distinctID)
      ∧ (m.engageData distinctID "$union" (Val.obj pprops)).filter (fun kv => opKeys.contains kv.1) =
          [("$union", (Val.obj pprops))])
    ∧
    ((m.ProfileUnset (t) distinctID names = m.engage t distinctID "$unset" (Val.arr (names.map Val.str)))
      ∧ mapGet (m.engageData distinctID "$unset" (Val.arr (names.map Val.str))) "$token" = some (Val.str m.Token)
      ∧ mapGet (m.engageData distinctID "$unset" (Val.arr (names.map Val.str))) "$distinct_id" = some (Val.str distinctID)
      ∧ (m.engageData distinctID "$unset" (Val.arr (names.map Val.str))).filter (fun kv => opKeys.contains kv.1) =
          [("$unset", (Val.arr (names.map Val.str)))])
    ∧
    ((m.ProfileDelete (t) distinctID = m.engage t distinctID "$delete" (Val.str ""))
      ∧ mapGet (m.engageData distinctID "$delete" (Val.str "")) "$token" = some (Val.str m.Token)
      ∧ mapGet (m.engageData distinctID "$delete" (Val.str "")) "$distinct_id" = some (Val.str distinctID)
      ∧ (m.engageData distinctID "$delete" (Val.str "")).filter (fun kv => opKeys.contains kv.1) =
          [("$delete", (Val.str ""))])
    ∧
    (m.engage (fun u => .error u) distinctID op v =
      (some (.ioError ((m.BaseURL ++ "/engage/") ++ "?data=" ++
          EncodeToString (strBytes (jsonMarshal (Val.obj (m.engageData distinctID op v)))))), m))
    := by
  refine ⟨⟨rfl, ?_, ?_, ?_⟩, ⟨rfl, ?_, ?_, ?_⟩, ⟨rfl, ?_, ?_, ?_⟩, ⟨rfl, ?_, ?_, ?_⟩,
    ⟨rfl, ?_, ?_, ?_⟩, ⟨rfl, ?_, ?_, ?_⟩, ⟨rfl, ?_, ?_, ?_⟩, engage_spy m distinctID op v⟩
  · rw [engageData_eq m distinctID "$set" (Val.obj pprops) rfl rfl rfl]
    by_cases hip : 0 < m.OverrideIPAddress.length
    · rw [if_pos hip]; rfl
    · rw [if_neg hip]; rfl
  · rw [engageData_eq m distinctID "$set" (Val.obj pprops) rfl rfl rfl]
    by_cases hip : 0 < m.OverrideIPAddress.length
    · rw [if_pos hip]; rfl
    · rw [if_neg hip]; rfl
  · rw [engageData_eq m distinctID "$set" (Val.obj pprops) rfl rfl rfl]
    by_cases hip : 0 < m.OverrideIPAddress.length
    · rw [if_pos hip]; rfl
    · rw [if_neg hip]; rfl
  · rw [engageData_eq m distinctID "$set_once" (Val.obj pprops) rfl rfl rfl]
    by_cases hip : 0 < m.OverrideIPAddress.length
    · rw [if_pos hip]; rfl
    · rw [if_neg hip]; rfl
  · rw [engageData_eq m distinctID "$set_once" (Val.obj pprops) rfl rfl rfl]
    by_cases hip : 0 < m.OverrideIPAddress.length
    · rw [if_pos hip]; rfl
    · rw [if_neg hip]; rfl
  · rw [engageData_eq m distinctID "$set_once" (Val.obj pprops) rfl rfl rfl]
    by_cases hip : 0 < m.OverrideIPAddress.length
    · rw [if_pos hip]; rfl
    · rw [if_neg hip]; rfl
  · rw [engageData_eq m distinctID "$add" (Val.obj (iprops.map (fun p => (p.1, Val.int p.2)))) rfl rfl rfl]
    by_cases hip : 0 < m.OverrideIPAddress.length
    · rw [if_pos hip]; rfl
    · rw [if_neg hip]; rfl
  · rw [engageData_eq m distinctID "$add" (Val.obj (iprops.map (fun p => (p.1, Val.int p.2)))) rfl rfl rfl]
    by_cases hip : 0 < m.OverrideIPAddress.length
    · rw [if_pos hip]; rfl
    · rw [if_neg hip]; rfl
  · rw [engageData_eq m distinctID "$add" (Val.obj (iprops.map (fun p => (p.1, Val.int p.2)))) rfl rfl rfl]
    by_cases hip : 0 < m.OverrideIPAddress.length
    · rw [if_pos hip]; rfl
    · rw [if_neg hip]; rfl
  · rw [engageData_eq m distinctID "$append" (Val.obj pprops) rfl rfl rfl]
    by_cases hip : 0 < m.OverrideIPAddress.length
    · rw [if_pos hip]; rfl
    · rw [if_neg hip]; rfl
  · rw [engageData_eq m distinctID "$append" (Val.obj pprops) rfl rfl rfl]
    by_cases hip : 0 < m.OverrideIPAddress.length
    · rw [if_pos hip]; rfl
    · rw [if_neg hip]; rfl
  · rw [engageData_eq m distinctID "$append" (Val.obj pprops) rfl rfl rfl]
    by_cases hip : 0 < m.OverrideIPAddress.length
    · rw [if_pos hip]; rfl
    · rw [if_neg hip]; rfl
  · rw [engageData_eq m distinctID "$union" (Val.obj pprops) rfl rfl rfl]
    by_cases hip : 0 < m.OverrideIPAddress.length
    · rw [if_pos hip]; rfl
    · rw [if_neg hip]; rfl
  · rw [engageData_eq m distinctID "$union" (Val.obj pprops) rfl rfl rfl]
    by_cases hip : 0 < m.OverrideIPAddress.length
    · rw [if_pos hip]; rfl
    · rw [if_neg hip]; rfl
  · rw [engageData_eq m distinctID "$union" (Val.obj pprops) rfl rfl rfl]
    by_cases hip : 0 < m.OverrideIPAddress.length
    · rw [if_pos hip]; rfl
    · rw [if_neg hip]; rfl
  · rw [engageData_eq m distinctID "$unset" (Val.arr (names.map Val.str)) rfl rfl rfl]
    by_cases hip : 0 < m.OverrideIPAddress.length
    · rw [if_pos hip]; rfl
    · rw [if_neg hip]; rfl
  · rw [engageData_eq m distinctID "$unset" (Val.arr (names.map Val.str)) rfl rfl rfl]
    by_cases hip : 0 < m.OverrideIPAddress.length
    · rw [if_pos hip]; rfl
    · rw [if_neg hip]; rfl
  · rw [engageData_eq m distinctID "$unset" (Val.arr (names.map Val.str)) rfl rfl rfl]
    by_cases hip : 0 < m.OverrideIPAddress.length
    · rw [if_pos hip]; rfl
    · rw [if_neg hip]; rfl
  · rw [engageData_eq m distinctID "$delete" (Val.str "") rfl rfl rfl]
    by_cases hip : 0 < m.OverrideIPAddress.length
    · rw [if_pos hip]; rfl
    · rw [if_neg hip]; rfl
  · rw [engageData_eq m distinctID "$delete" (Val.str "") rfl rfl rfl]
    by_cases hip : 0 < m.OverrideIPAddress.length
    · rw [if_pos hip]; rfl
    · rw [if_neg hip]; rfl
  · rw [engageData_eq m distinctID "$delete" (Val.str "") rfl rfl rfl]
    by_cases hip : 0 < m.OverrideIPAddress.length
    · rw [if_pos hip]; rfl
    · rw [if_neg hip]; rfl

/-- **C4.** For every profile operation call, the engage envelope contains
`$ip` equal to the client's `OverrideIPAddress` when that field is set
(non-empty), and contains no `$ip` key when it is unset. -/
theorem claim_C4_override_ip (m : Mixpanel) (distinctID : String)
    (pprops : List (String × Val)) (iprops : List (String × Int)) (names : List String) :
    mapGet (m.engageData distinctID "$set" (Val.obj pprops)) "$ip" =
      (if 0 < m.OverrideIPAddress.length then some (Val.str m.OverrideIPAddress) else none)
    ∧
    mapGet (m.engageData distinctID "$set_once" (Val.obj pprops)) "$ip" =
      (if 0 < m.OverrideIPAddress.length then some (Val.str m.OverrideIPAddress) else none)
    ∧
    mapGet (m.engageData distinctID "$add" (Val.obj (iprops.map (fun p => (p.1, Val.int p.2))))) "$ip" =
      (if 0 < m.OverrideIPAddress.length then some (Val.str m.OverrideIPAddress) else none)
    ∧
    mapGet (m.engageData distinctID "$append" (Val.obj pprops)) "$ip" =
      (if 0 < m.OverrideIPAddress.length then some (Val.str m.OverrideIPAddress) else none)
    ∧
    mapGet (m.engageData distinctID "$union" (Val.obj pprops)) "$ip" =
      (if 0 < m.OverrideIPAddress.length then some (Val.str m.OverrideIPAddress) else none)
    ∧
    mapGet (m.engageData distinctID "$unset" (Val.arr (names.map Val.str))) "$ip" =
      (if 0 < m.OverrideIPAddress.length then some (Val.str m.OverrideIPAddress) else none)
    ∧
    mapGet (m.engageData distinctID "$delete" (Val.str "")) "$ip" =
      (if 0 < m.OverrideIPAddress.length then some (Val.str m.OverrideIPAddress) else none)
    := by
  refine ⟨?_, ?_, ?_, ?_, ?_, ?_, ?_⟩
  · rw [engageData_eq m distinctID "$set" (Val.obj pprops) rfl rfl rfl]
    by_cases hip : 0 < m.OverrideIPAddress.length
    · rw [if_pos hip, if_pos hip]; rfl
    · rw [if_neg hip, if_neg hip]; rfl
  · rw [engageData_eq m distinctID "$set_once" (Val.obj pprops) rfl rfl rfl]
    by_cases hip : 0 < m.OverrideIPAddress.length
    · rw [if_pos hip, if_pos hip]; rfl
    · rw [if_neg hip, if_neg hip]; rfl
  · rw [engageData_eq m distinctID "$add" (Val.obj (iprops.map (fun p => (p.1, Val.int p.2)))) rfl rfl rfl]
    by_cases hip : 0 < m.OverrideIPAddress.length
    · rw [if_pos hip, if_pos hip]; rfl
    · rw [if_neg hip, if_neg hip]; rfl
  · rw [engageData_eq m distinctID "$append" (Val.obj pprops) rfl rfl rfl]
    by_cases hip : 0 < m.OverrideIPAddress.length
    · rw [if_pos hip, if_pos hip]; rfl
    · rw [if_neg hip, if_neg hip]; rfl
  · rw [engageData_eq m distinctID "$union" (Val.obj pprops) rfl rfl rfl]
    by_cases hip : 0 < m.OverrideIPAddress.length
    · rw [if_pos hip, if_pos hip]; rfl
    · rw [if_neg hip, if_neg hip]; rfl
  · rw [engageData_eq m distinctID "$unset" (Val.arr (names.map Val.str)) rfl rfl rfl]
    by_cases hip : 0 < m.OverrideIPAddress.length
    · rw [if_pos hip, if_pos hip]; rfl
    · rw [if_neg hip, if_neg hip]; rfl
  · rw [engageData_eq m distinctID "$delete" (Val.str "") rfl rfl rfl]
    by_cases hip : 0 < m.OverrideIPAddress.length
    · rw [if_pos hip, if_pos hip]; rfl
    · rw [if_neg hip, if_neg hip]; rfl

end GoMixpanel
namespace GoMixpanel

/-- **C5.** `ProfileCreateAliasDistinctIdToAlias(oldID, newID)` behaves exactly
as `Track` called with event `"$create_alias"` and properties
`{distinct_id: oldID, alias: newID}`: the alias call's returned error and
post-call receiver are precisely those of that `Track` call. -/
theorem claim_C5_alias_refines_track (m : Mixpanel) (t : Transport) (oldID newID : String) :
    m.Track t "$create_alias" (some [("distinct_id", Val.str oldID), ("alias", Val.str newID)]) =
      some ((m.ProfileCreateAliasDistinctIdToAlias t oldID newID).1,
        assocSet [("distinct_id", Val.str oldID), ("alias", Val.str newID)] "token"
          (Val.str m.Token),
        (m.ProfileCreateAliasDistinctIdToAlias t oldID newID).2) := by
  unfold Mixpanel.ProfileCreateAliasDistinctIdToAlias
  rw [Track_characterization]

/-- **C6.** The shared request routine `get` JSON-serializes the envelope,
base64-encodes the result, and issues the request to
`{url}?data={base64(json)}`, where `Track` passes `{baseURL}/track/` and
`engage` (all profile operations) passes `{baseURL}/engage/`; the transport
returns the response body read in full as text. -/
theorem claim_C6_request_url_composition (m : Mixpanel) (t : Transport)
    (url event distinctID op : String) (data props : List (String × Val)) (v : Val) :
    (m.get t url data =
        t (url ++ "?data=" ++ EncodeToString (strBytes (jsonMarshal (Val.obj data)))))
    ∧ (m.Track (fun u => .error u) event (some props) =
        some (some (.ioError ((m.BaseURL ++ "/track/") ++ "?data=" ++
            EncodeToString (strBytes (jsonMarshal (Val.obj
              [("event", Val.str event),
               ("properties", Val.obj (assocSet props "token" (Val.str m.Token)))]))))),
          assocSet props "token" (Val.str m.Token), m))
    ∧ (m.engage (fun u => .error u) distinctID op v =
        (some (.ioError ((m.BaseURL ++ "/engage/") ++ "?data=" ++
            EncodeToString (strBytes (jsonMarshal (Val.obj
              (m.engageData distinctID op v)))))), m)) :=
  ⟨rfl, track_spy m event props, engage_spy m distinctID op v⟩

/-- **C7.** If the transport fails (connection failure or body-read failure,
carrying message `e`), every operation returns that error unmodified —
`ioError e`, never one of the two domain errors. -/
theorem claim_C7_transport_errors_propagate (m : Mixpanel) (e event distinctID op : String)
    (oldID newID : String) (props pprops : List (String × Val))
    (iprops : List (String × Int)) (names : List String) (v : Val) :
    ((m.Track (fun _ => .error e) event (some props)).map (fun r => r.1) =
        some (some (MpError.ioError e)))
    ∧ (m.engage (fun _ => .error e) distinctID op v).1 = some (MpError.ioError e)
    ∧ (m.ProfileSet (fun _ => .error e) distinctID pprops).1 = some (MpError.ioError e)
    ∧ (m.ProfileSetOnce (fun _ => .error e) distinctID pprops).1 = some (MpError.ioError e)
    ∧ (m.ProfileAdd (fun _ => .error e) distinctID iprops).1 = some (MpError.ioError e)
    ∧ (m.ProfileAppend (fun _ => .error e) distinctID pprops).1 = some (MpError.ioError e)
    ∧ (m.ProfileUnion (fun _ => .error e) distinctID pprops).1 = some (MpError.ioError e)
    ∧ (m.ProfileUnset (fun _ => .error e) distinctID names).1 = some (MpError.ioError e)
    ∧ (m.ProfileDelete (fun _ => .error e) distinctID).1 = some (MpError.ioError e)
    ∧ (m.ProfileCreateAliasDistinctIdToAlias (fun _ => .error e) oldID newID).1 =
        some (MpError.ioError e) :=
  ⟨rfl, rfl, rfl, rfl, rfl, rfl, rfl, rfl, rfl, rfl⟩

/-- **C8.** For every non-empty token, constructing a client from the token
alone yields that token with the default base URL
`https://api.mixpanel.com`; constructing with an explicit second argument
yields that argument as the base URL. -/
theorem claim_C8_constructor_defaults (token : String) (h : token ≠ "") :
    NewMixpanelClient [token] =
      some { Token := token, BaseURL := BASE_URL, OverrideIPAddress := "" }
    ∧ BASE_URL = "https://api.mixpanel.com"
    ∧ ∀ u rest, NewMixpanelClient (token :: u :: rest) =
        some { Token := token, BaseURL := u, OverrideIPAddress := "" } :=
  ⟨rfl, rfl, fun _ _ => rfl⟩

/-- Witness for C8 at a concrete non-empty token. -/
theorem claim_C8_constructor_defaults_witness :
    ("tok" : String) ≠ "" ∧
      NewMixpanelClient ["tok", "http://localhost"] =
        some { Token := "tok", BaseURL := "http://localhost", OverrideIPAddress := "" } :=
  ⟨by decide, (claim_C8_constructor_defaults "tok" (by decide)).2.2 "http://localhost" []⟩

/-- **C9.** The client configuration is immutable: after any operation the
receiver's fields (`Token`, `BaseURL`, `OverrideIPAddress`) are exactly what
they were before the call. -/
theorem claim_C9_client_immutable (m : Mixpanel) (t : Transport)
    (event distinctID op oldID newID : String) (props pprops : List (String × Val))
    (iprops : List (String × Int)) (names : List String) (v : Val) :
    ((m.Track t event (some props)).map (fun r => r.2.2) = some m)
    ∧ (m.engage t distinctID op v).2 = m
    ∧ (m.ProfileSet (t) distinctID pprops).2 = m
    ∧ (m.ProfileSetOnce (t) distinctID pprops).2 = m
    ∧ (m.ProfileAdd (t) distinctID iprops).2 = m
    ∧ (m.ProfileAppend (t) distinctID pprops).2 = m
    ∧ (m.ProfileUnion (t) distinctID pprops).2 = m
    ∧ (m.ProfileUnset (t) distinctID names).2 = m
    ∧ (m.ProfileDelete (t) distinctID).2 = m
    ∧ (m.ProfileCreateAliasDistinctIdToAlias t oldID newID).2 = m := by
  refine ⟨?_, ?_, ?_, ?_, ?_, ?_, ?_, ?_, ?_, ?_⟩
  · rw [Track_characterization]; rfl
  · rw [engage_characterization]
  · simp only [Mixpanel.ProfileSet]; rw [engage_characterization]
  · simp only [Mixpanel.ProfileSetOnce]; rw [engage_characterization]
  · simp only [Mixpanel.ProfileAdd]; rw [engage_characterization]
  · simp only [Mixpanel.ProfileAppend]; rw [engage_characterization]
  · simp only [Mixpanel.ProfileUnion]; rw [engage_characterization]
  · simp only [Mixpanel.ProfileUnset]; rw [engage_characterization]
  · simp only [Mixpanel.ProfileDelete]; rw [engage_characterization]
  · unfold Mixpanel.ProfileCreateAliasDistinctIdToAlias
    rw [Track_characterization]

/-- **C10.** `Track` requires a non-nil properties map: called with a nil map
it panics at the in-place `properties["token"]` injection (no error value is
returned — result `none`), while with any existing map it completes normally
(result `some`). -/
theorem claim_C10_nil_properties_panics (m : Mixpanel) (t : Transport) (event : String)
    (props : List (String × Val)) :
    m.Track t event none = none
    ∧ (m.Track t event (some props)).isSome = true := by
  refine ⟨rfl, ?_⟩
  rw [Track_characterization]
  rfl

end GoMixpanel
